import Mathlib

/-!
Verification of the artisan-catalog storefront application.

The application is a single-page React component (`src/App.jsx`) whose
behavioural core is a data-synchronization controller (two in-memory
collections fetched from a remote gateway, a loading flag, wholesale
refresh after mutations), a view navigator, an admin session guard,
a derived category filter and a handful of form handlers.

The embedding below translates that coordination layer shallowly:
gateway calls become explicit result parameters, React state updates
become functional updates of an `AppState` record, `alert`/`console.error`
become lists of emitted strings, and JSX rendering decisions become
small inductive render values.
-/

namespace ArtisanCatalog

/-- The four top-level screens of the view navigator
(`useState('home')` plus `navigate` in `App.jsx`). -/
inductive View where
  | home
  | catalog
  | adminLogin
  | adminDashboard
deriving DecidableEq, Repr

/-- A row of the `products` table as fetched from the gateway
(`id, name, category, price, description, image, created_at`). -/
structure Product where
  id : Nat
  name : String
  category : String
  price : Int
  description : String
  image : String
  created_at : Nat
deriving DecidableEq, Repr

/-- A row of the `inquiries` table as fetched from the gateway. -/
structure Inquiry where
  id : Nat
  product : String
  customer : String
  contact : String
  message : String
  status : String
  created_at : Nat
deriving DecidableEq, Repr

/-- The root component state: `view`, `products`, `inquiries`,
`isAdmin`, `loading` (the five `useState` hooks of `App`). -/
structure AppState where
  view : View
  products : List Product
  inquiries : List Inquiry
  isAdmin : Bool
  loading : Bool
deriving DecidableEq, Repr

/-- The initial hook values: `useState('home')`, `useState([])`,
`useState([])`, `useState(false)`, `useState(true)`. -/
def initState : AppState :=
  ⟨View.home, [], [], false, true⟩

/-- Result of a gateway `select`: supabase returns a `{ data, error }`
pair, where `data` may be null even without an error (the code guards
with `productData || []`). -/
inductive FetchResult (α : Type) where
  | ok (data : Option (List α))
  | err (msg : String)
deriving DecidableEq, Repr

/-- Result of `fetchData`: the updated component state together with
the `console.error` messages emitted during the call. -/
structure FetchOutcome where
  state : AppState
  logs : List String
deriving DecidableEq, Repr

/-- `setLoading(true)` at the top of `fetchData`. -/
def beginRefresh (s : AppState) : AppState :=
  { s with loading := true }

/-- `fetchData` from `App.jsx` lines 14-42: set loading, fetch products
(on error log, else `setProducts(productData || [])`), fetch inquiries
(likewise), clear loading. -/
def fetchData (s : AppState) (pr : FetchResult Product) (ir : FetchResult Inquiry) :
    FetchOutcome :=
  let s1 := beginRefresh s
  let step1 : AppState × List String :=
    match pr with
    | FetchResult.err m => (s1, ["Error fetching products: " ++ m])
    | FetchResult.ok d => ({ s1 with products := d.getD [] }, [])
  let step2 : AppState × List String :=
    match ir with
    | FetchResult.err m => (step1.1, step1.2 ++ ["Error fetching inquiries: " ++ m])
    | FetchResult.ok d => ({ step1.1 with inquiries := d.getD [] }, step1.2)
  FetchOutcome.mk { step2.1 with loading := false } step2.2

/-- Observable outcome of a mutation entry point (`addProduct`,
`deleteProduct`): whether the gateway operation was issued, whether
`fetchData()` was invoked, the `alert` messages shown, and the local
component state as left by the handler itself (before any refresh). -/
structure MutationOutcome where
  gatewayCalled : Bool
  refreshCalled : Bool
  alerts : List String
  state : AppState
deriving DecidableEq, Repr

/-- `addProduct` from `App.jsx` lines 53-67: insert into `products`;
on error alert the message; on success alert and call `fetchData()`.
`gw = none` models a successful insert, `gw = some m` an insert error
with message `m`. -/
def addProduct (s : AppState) (gw : Option String) : MutationOutcome :=
  match gw with
  | none => ⟨true, true, ["Product Added Successfully!"], s⟩
  | some m => ⟨true, false, ["Error adding product: " ++ m], s⟩

/-- `deleteProduct` from `App.jsx` lines 69-83: only inside
`window.confirm(...)` is the gateway delete issued; on error alert,
on success call `fetchData()`. `confirm` is the user's answer to the
prompt; `gw` the gateway result of the delete when issued. -/
def deleteProduct (s : AppState) (confirm : Bool) (gw : Option String) :
    MutationOutcome :=
  if confirm then
    match gw with
    | some m => ⟨true, false, ["Error deleting: " ++ m], s⟩
    | none => ⟨true, true, [], s⟩
  else
    ⟨false, false, [], s⟩

/-- The inquiry object handed to `addInquiry` by a caller; `status` is
optional because the spread `{ ...inquiry, status: 'New' }` would
overwrite any status the caller supplied. -/
structure InquiryInput where
  product : String
  customer : String
  contact : String
  message : String
  status : Option String
deriving DecidableEq, Repr

/-- The row actually sent to the gateway by `addInquiry`:
`{ ...inquiry, status: 'New' }`. -/
structure InquiryPayload where
  product : String
  customer : String
  contact : String
  message : String
  status : String
deriving DecidableEq, Repr

/-- Observable outcome of `addInquiry`: the payload sent, whether
`fetchData()` was invoked, the alerts, and the component state. -/
structure AddInquiryOutcome where
  sent : InquiryPayload
  refreshCalled : Bool
  alerts : List String
  state : AppState
deriving DecidableEq, Repr

/-- `addInquiry` from `App.jsx` lines 85-98: insert
`{ ...inquiry, status: 'New' }` into `inquiries`; alert on success or
failure; never calls `fetchData`. -/
def addInquiry (s : AppState) (i : InquiryInput) (gw : Option String) :
    AddInquiryOutcome :=
  let payload : InquiryPayload := ⟨i.product, i.customer, i.contact, i.message, "New"⟩
  match gw with
  | none => ⟨payload, false, ["Inquiry Sent! The artisan will contact you shortly."], s⟩
  | some m => ⟨payload, false, ["Error sending inquiry: " ++ m], s⟩

/-- The inquiry object built by the `ProductCard` modal form submit
(`App.jsx` lines 287-297): the product's `name` at submission time plus
the three form fields; no status field is supplied. -/
def productCardSubmit (p : Product) (customer contact message : String) : InquiryInput :=
  ⟨p.name, customer, contact, message, none⟩

/-- One step of JS `Set` construction: insert `x` if not yet present,
keeping insertion order. -/
def jsSetAdd (seen : List String) (x : String) : List String :=
  if x ∈ seen then seen else seen ++ [x]

/-- JS `[...new Set(l)]`: the distinct elements of `l` in insertion
(first-occurrence) order. -/
def jsSet (l : List String) : List String :=
  List.foldl jsSetAdd [] l

/-- `CatalogView` line 195: `['All', ...new Set(products.map(p => p.category))]`. -/
def categoriesOf (products : List Product) : List String :=
  "All" :: jsSet (products.map (fun p => p.category))

/-- `CatalogView` lines 197-199: `filter === 'All' ? products :
products.filter(p => p.category === filter)`. -/
def filteredProducts (cat : String) (products : List Product) : List Product :=
  if cat = "All" then products
  else products.filter (fun p => p.category = cat)

/-- Spec-side description of the derived category list's tail: the
distinct category values in first-occurrence order, no duplicates.
Defined independently of `jsSet` to compare the code with the spec. -/
def specDistinctFirstOccurrence : List String → List String
  | [] => []
  | x :: xs => x :: specDistinctFirstOccurrence (xs.filter (fun y => y ≠ x))
termination_by l => l.length
decreasing_by
  simp only [List.length_cons]
  exact Nat.lt_succ_of_le (List.length_filter_le _ _)

/-- The fixed shared-secret constant compared against the password
(`App.jsx` line 317). -/
def sharedSecret : String := "sk234f90"

/-- `handleLogin` (`App.jsx` lines 315-322) combined with the `onLogin`
callback (`line 134`): on match, `setIsAdmin(true)` and navigate to
`admin-dashboard`; on mismatch, leave state alone and set the inline
error. Returns the new state and the inline error produced by this
attempt. -/
def handleLogin (s : AppState) (pass : String) : AppState × Option String :=
  if pass = sharedSecret then
    ({ s with isAdmin := true, view := View.adminDashboard }, none)
  else
    (s, some "Invalid Password (Hint: admin)")

/-- The `onLogout` callback (`App.jsx` lines 141-145): `setIsAdmin(false)`,
`setView('home')`, and an alert. Returns the new state and the alerts. -/
def handleLogout (s : AppState) : AppState × List String :=
  ({ s with isAdmin := false, view := View.home }, ["Logged out successfully"])

/-- What `main` renders (`App.jsx` lines 126-148): a spinner while
`loading`, otherwise the page selected by `view`. -/
inductive Rendered where
  | spinner
  | page (v : View)
deriving DecidableEq, Repr

/-- The loading gate of the main content switcher. -/
def render (s : AppState) : Rendered :=
  if s.loading then Rendered.spinner else Rendered.page s.view

/-- Side effects scheduled at mount time. -/
inductive Effect where
  | refresh
deriving DecidableEq, Repr

/-- `useEffect(() => { fetchData(); }, [])` (`App.jsx` lines 45-47):
with an empty dependency list the effect runs exactly once, at mount. -/
def mountEffects : List Effect := [Effect.refresh]

/-- What the Featured Items grid of `HomeView` shows (`App.jsx` lines
180-186): `products.length > 0 ? products.slice(0, 4).map(...) :
<empty-state>`. -/
inductive FeaturedContent where
  | cards (shown : List Product)
  | emptyNotice
deriving DecidableEq, Repr

/-- The featured section of the home view. -/
def homeFeatured (products : List Product) : FeaturedContent :=
  if products.length > 0 then FeaturedContent.cards (products.take 4)
  else FeaturedContent.emptyNotice

/-- The product record built by the add-product form submit handler
(`App.jsx` lines 417-430), before the backend assigns `id` and
`created_at`. -/
structure ProductPayload where
  name : String
  category : String
  price : Int
  description : String
  image : String
deriving DecidableEq, Repr

/-- The fixed placeholder image URL used when the image field is empty. -/
def placeholderImageUrl : String :=
  "https://images.unsplash.com/photo-1513519245088-0e12902e5a38?auto=format&fit=crop&q=80&w=500"

/-- The add-product form submit (`App.jsx` lines 417-430):
`image: imageFile ? '/' + imageFile : <placeholder>` where a JS string
is truthy exactly when non-empty. -/
def buildProductFromForm (name category : String) (price : Int)
    (description imageFile : String) : ProductPayload :=
  ⟨name, category, price, description,
    if imageFile = "" then placeholderImageUrl else "/" ++ imageFile⟩

/-! ### Demo data used by counterexamples and witnesses. -/

/-- A concrete pottery product. -/
def clayBowl : Product :=
  ⟨1, "Clay Bowl", "Pottery", 1200, "hand-thrown bowl", "/bowl.jpg", 5⟩

/-- A second pottery product. -/
def clayVase : Product :=
  ⟨2, "Clay Vase", "Pottery", 2500, "tall vase", "/vase.jpg", 4⟩

/-- A weaving product. -/
def woolRug : Product :=
  ⟨3, "Wool Rug", "Weaving", 8000, "hand-woven rug", "/rug.jpg", 3⟩

/-- A fourth product. -/
def teakTray : Product :=
  ⟨4, "Teak Tray", "Woodwork", 1500, "carved tray", "/tray.jpg", 2⟩

/-- A fifth product. -/
def brassLamp : Product :=
  ⟨5, "Brass Lamp", "Metalwork", 4200, "etched lamp", "/lamp.jpg", 1⟩

/-- The spec's category-filter scenario: categories Pottery, Pottery, Weaving. -/
def demoProducts : List Product := [clayBowl, clayVase, woolRug]

/-- Five products, to exercise the four-item featured limit. -/
def fiveProducts : List Product := [clayBowl, clayVase, woolRug, teakTray, brassLamp]

/-- A state holding a previously fetched non-empty snapshot. -/
def stateWithBowl : AppState :=
  ⟨View.home, [clayBowl], [], false, false⟩

/-! ### Helper lemmas about the derived category list. -/

theorem mem_specDistinctFirstOccurrence (l : List String) (y : String) :
    y ∈ specDistinctFirstOccurrence l ↔ y ∈ l := by
  induction l using specDistinctFirstOccurrence.induct with
  | case1 => simp [specDistinctFirstOccurrence]
  | case2 x xs ih =>
    rw [specDistinctFirstOccurrence]
    constructor
    · intro h
      rcases List.mem_cons.1 h with h | h
      · rw [h]
        exact List.mem_cons_self x xs
      · exact List.mem_cons_of_mem _ (List.mem_filter.1 (ih.mp h)).1
    · intro h
      by_cases hyx : y = x
      · rw [hyx]
        exact List.mem_cons_self _ _
      · rcases List.mem_cons.1 h with h | h
        · exact absurd h hyx
        · exact List.mem_cons_of_mem _
            (ih.mpr (List.mem_filter.2 ⟨h, by simp [hyx]⟩))

theorem nodup_specDistinctFirstOccurrence (l : List String) :
    (specDistinctFirstOccurrence l).Nodup := by
  induction l using specDistinctFirstOccurrence.induct with
  | case1 => simp [specDistinctFirstOccurrence]
  | case2 x xs ih =>
    rw [specDistinctFirstOccurrence]
    refine List.nodup_cons.2 ⟨?_, ih⟩
    intro hx
    have := (mem_specDistinctFirstOccurrence _ _).1 hx
    simp [List.mem_filter] at this

theorem filter_not_mem_append (xs acc : List String) (x : String) :
    xs.filter (fun y => ¬ (y ∈ acc ++ [x])) =
      (xs.filter (fun y => ¬ (y ∈ acc))).filter (fun y => y ≠ x) := by
  rw [List.filter_filter]
  refine List.filter_congr ?_
  intro a _
  by_cases hax : a = x <;> by_cases ha : a ∈ acc <;> simp [hax, ha]

theorem foldl_jsSetAdd (l acc : List String) :
    List.foldl jsSetAdd acc l =
      acc ++ specDistinctFirstOccurrence (l.filter (fun y => ¬ (y ∈ acc))) := by
  induction l generalizing acc with
  | nil => simp [specDistinctFirstOccurrence]
  | cons x xs ih =>
    rw [List.foldl_cons]
    by_cases hx : x ∈ acc
    · have hadd : jsSetAdd acc x = acc := by simp [jsSetAdd, hx]
      have hfilter : (x :: xs).filter (fun y => ¬ (y ∈ acc)) =
          xs.filter (fun y => ¬ (y ∈ acc)) := by
        simp [List.filter_cons, hx]
      rw [hadd, hfilter, ih]
    · have hadd : jsSetAdd acc x = acc ++ [x] := by simp [jsSetAdd, hx]
      have hfilter : (x :: xs).filter (fun y => ¬ (y ∈ acc)) =
          x :: xs.filter (fun y => ¬ (y ∈ acc)) := by
        simp [List.filter_cons, hx]
      rw [hadd, ih, hfilter, specDistinctFirstOccurrence, filter_not_mem_append]
      simp

theorem jsSet_eq_spec (l : List String) :
    jsSet l = specDistinctFirstOccurrence l := by
  rw [jsSet, foldl_jsSetAdd]
  simp

/-! ### Claim theorems. -/

/-- C1 (counterexample): the claim says a collection whose fetch errored
is an empty sequence after the `refresh()` call. In the state reached
after a successful fetch of `[clayBowl]`, a refresh whose product fetch
errors leaves the product collection equal to `[clayBowl]`, not empty:
`setProducts` is only invoked on the success branch. -/
theorem fetchData_error_keeps_previous_snapshot :
    (fetchData stateWithBowl (FetchResult.err "network down")
        (FetchResult.ok (some []))).state.products = [clayBowl] ∧
      [clayBowl] ≠ ([] : List Product) := by
  constructor
  · rfl
  · decide

/-- C1 (amended): on a fetch error for a collection, the error is logged
and that collection is left unchanged by the call (not retried and not
emptied), while the other collection, if its fetch succeeded, is
replaced wholesale by the fetched data (empty when the payload is null);
and a collection whose fetch succeeded is likewise replaced. -/
theorem fetchData_error_logged_and_collection_unchanged
    (s : AppState) (pr : FetchResult Product) (ir : FetchResult Inquiry) :
    (∀ m, pr = FetchResult.err m →
      ("Error fetching products: " ++ m) ∈ (fetchData s pr ir).logs ∧
      (fetchData s pr ir).state.products = s.products) ∧
    (∀ m, ir = FetchResult.err m →
      ("Error fetching inquiries: " ++ m) ∈ (fetchData s pr ir).logs ∧
      (fetchData s pr ir).state.inquiries = s.inquiries) ∧
    (∀ d, pr = FetchResult.ok d →
      (fetchData s pr ir).state.products = d.getD []) ∧
    (∀ d, ir = FetchResult.ok d →
      (fetchData s pr ir).state.inquiries = d.getD []) := by
  refine ⟨?_, ?_, ?_, ?_⟩
  · rintro m rfl
    cases ir <;> simp [fetchData, beginRefresh]
  · rintro m rfl
    cases pr <;> simp [fetchData, beginRefresh]
  · rintro d rfl
    cases ir <;> simp [fetchData, beginRefresh]
  · rintro d rfl
    cases pr <;> simp [fetchData, beginRefresh]

/-- C1 (witness): the amended theorem applied at a concrete erroring
product fetch over a non-empty previous snapshot. -/
theorem fetchData_error_logged_and_collection_unchanged_witness :
    ("Error fetching products: boom") ∈
        (fetchData stateWithBowl (FetchResult.err "boom")
          (FetchResult.ok (some []))).logs ∧
      (fetchData stateWithBowl (FetchResult.err "boom")
          (FetchResult.ok (some []))).state.products = stateWithBowl.products :=
  (fetchData_error_logged_and_collection_unchanged stateWithBowl
    (FetchResult.err "boom") (FetchResult.ok (some []))).1 "boom" rfl

/-- C2: `deleteProduct` issues no gateway delete and leaves state
unchanged when the confirmation prompt is declined; on confirm and
gateway success it triggers `fetchData()`; on confirm and gateway
failure it surfaces the error message and leaves state unchanged. -/
theorem deleteProduct_confirmation_contract
    (s : AppState) (confirm : Bool) (gw : Option String) :
    (confirm = false →
      (deleteProduct s confirm gw).gatewayCalled = false ∧
      (deleteProduct s confirm gw).refreshCalled = false ∧
      (deleteProduct s confirm gw).state = s) ∧
    (confirm = true → gw = none →
      (deleteProduct s confirm gw).gatewayCalled = true ∧
      (deleteProduct s confirm gw).refreshCalled = true) ∧
    (∀ m, confirm = true → gw = some m →
      ("Error deleting: " ++ m) ∈ (deleteProduct s confirm gw).alerts ∧
      (deleteProduct s confirm gw).refreshCalled = false ∧
      (deleteProduct s confirm gw).state = s) := by
  refine ⟨?_, ?_, ?_⟩
  · rintro rfl
    simp [deleteProduct]
  · rintro rfl rfl
    simp [deleteProduct]
  · rintro m rfl rfl
    simp [deleteProduct]

/-- C2 (witness): the contract applied at concrete inputs: a declined
prompt, a confirmed successful delete, and a confirmed failing delete. -/
theorem deleteProduct_confirmation_contract_witness :
    ((deleteProduct stateWithBowl false none).gatewayCalled = false ∧
      (deleteProduct stateWithBowl false none).refreshCalled = false ∧
      (deleteProduct stateWithBowl false none).state = stateWithBowl) ∧
    ((deleteProduct stateWithBowl true none).gatewayCalled = true ∧
      (deleteProduct stateWithBowl true none).refreshCalled = true) ∧
    (("Error deleting: row locked") ∈
        (deleteProduct stateWithBowl true (some "row locked")).alerts ∧
      (deleteProduct stateWithBowl true (some "row locked")).refreshCalled = false ∧
      (deleteProduct stateWithBowl true (some "row locked")).state = stateWithBowl) :=
  ⟨(deleteProduct_confirmation_contract stateWithBowl false none).1 rfl,
    (deleteProduct_confirmation_contract stateWithBowl true none).2.1 rfl rfl,
    (deleteProduct_confirmation_contract stateWithBowl true (some "row locked")).2.2
      "row locked" rfl rfl⟩

/-- C3: for any inquiry input the payload sent to the gateway carries
the input's `product`, `customer`, `contact` and `message` fields with
`status` force-set to `"New"` (any caller-supplied status is ignored);
the modal submit builds the input from the product's name at submission
time; and `addInquiry` never triggers a refresh. -/
theorem addInquiry_payload_contract
    (s : AppState) (i : InquiryInput) (gw : Option String)
    (p : Product) (customer contact message : String) :
    (addInquiry s i gw).sent =
        InquiryPayload.mk i.product i.customer i.contact i.message "New" ∧
    (addInquiry s i gw).refreshCalled = false ∧
    (addInquiry s (productCardSubmit p customer contact message) gw).sent =
        InquiryPayload.mk p.name customer contact message "New" := by
  refine ⟨?_, ?_, ?_⟩ <;> cases gw <;> rfl

/-- C4: the derived category list is `"All"` followed by the distinct
category values of the snapshot in first-occurrence order (a list with
no duplicates containing exactly the categories present); selecting
`"All"` displays the full snapshot, and any selection displays exactly
the products whose category matches it as an exact string. -/
theorem catalog_categories_and_filter (products : List Product) (cat : String) :
    categoriesOf products =
        "All" :: specDistinctFirstOccurrence (products.map (fun p => p.category)) ∧
    (specDistinctFirstOccurrence (products.map (fun p => p.category))).Nodup ∧
    (∀ c, c ∈ specDistinctFirstOccurrence (products.map (fun p => p.category)) ↔
        c ∈ products.map (fun p => p.category)) ∧
    filteredProducts "All" products = products ∧
    (∀ p, p ∈ filteredProducts cat products ↔
        p ∈ products ∧ (cat = "All" ∨ p.category = cat)) := by
  refine ⟨?_, nodup_specDistinctFirstOccurrence _,
    fun c => mem_specDistinctFirstOccurrence _ c, ?_, ?_⟩
  · rw [categoriesOf, jsSet_eq_spec]
  · simp [filteredProducts]
  · intro p
    by_cases hcat : cat = "All"
    · simp [filteredProducts, hcat]
    · simp [filteredProducts, hcat, List.mem_filter]

/-- C5: a login attempt with the shared-secret constant sets the
authenticated flag and moves the view to the admin dashboard with no
inline error; any other password leaves the flag and the view unchanged
and produces the inline error message. -/
theorem handleLogin_contract (s : AppState) (pass : String) :
    (pass = sharedSecret →
      (handleLogin s pass).1.isAdmin = true ∧
      (handleLogin s pass).1.view = View.adminDashboard ∧
      (handleLogin s pass).2 = none) ∧
    (pass ≠ sharedSecret →
      (handleLogin s pass).1.isAdmin = s.isAdmin ∧
      (handleLogin s pass).1.view = s.view ∧
      (handleLogin s pass).2 = some "Invalid Password (Hint: admin)") := by
  constructor
  · rintro rfl
    simp [handleLogin]
  · intro h
    simp [handleLogin, h]

/-- C5 (witness): the contract applied at the correct password and at a
wrong password over a concrete state. -/
theorem handleLogin_contract_witness :
    ((handleLogin stateWithBowl "sk234f90").1.isAdmin = true ∧
      (handleLogin stateWithBowl "sk234f90").1.view = View.adminDashboard ∧
      (handleLogin stateWithBowl "sk234f90").2 = none) ∧
    ((handleLogin stateWithBowl "admin").1.isAdmin = stateWithBowl.isAdmin ∧
      (handleLogin stateWithBowl "admin").1.view = stateWithBowl.view ∧
      (handleLogin stateWithBowl "admin").2 =
        some "Invalid Password (Hint: admin)") :=
  ⟨(handleLogin_contract stateWithBowl "sk234f90").1 rfl,
    (handleLogin_contract stateWithBowl "admin").2 (by decide)⟩

/-- C6: logout always leaves the session guard unauthenticated and the
navigator at `home`, regardless of the prior flag or view. -/
theorem handleLogout_resets (s : AppState) :
    (handleLogout s).1.isAdmin = false ∧ (handleLogout s).1.view = View.home := by
  exact ⟨rfl, rfl⟩

/-- C7: on a successful gateway insert `addProduct` signals success and
triggers a full refresh; on a failing insert it surfaces the error
message and does not mutate the local collections (the component state
it leaves behind is the input state). -/
theorem addProduct_contract (s : AppState) (gw : Option String) :
    (gw = none →
      ("Product Added Successfully!") ∈ (addProduct s gw).alerts ∧
      (addProduct s gw).refreshCalled = true) ∧
    (∀ m, gw = some m →
      ("Error adding product: " ++ m) ∈ (addProduct s gw).alerts ∧
      (addProduct s gw).refreshCalled = false ∧
      (addProduct s gw).state.products = s.products ∧
      (addProduct s gw).state.inquiries = s.inquiries) := by
  constructor
  · rintro rfl
    simp [addProduct]
  · rintro m rfl
    simp [addProduct]

/-- C7 (witness): the contract applied at a concrete successful insert
and at a concrete failing insert. -/
theorem addProduct_contract_witness :
    (("Product Added Successfully!") ∈ (addProduct stateWithBowl none).alerts ∧
      (addProduct stateWithBowl none).refreshCalled = true) ∧
    (("Error adding product: duplicate key") ∈
        (addProduct stateWithBowl (some "duplicate key")).alerts ∧
      (addProduct stateWithBowl (some "duplicate key")).refreshCalled = false ∧
      (addProduct stateWithBowl (some "duplicate key")).state.products =
        stateWithBowl.products ∧
      (addProduct stateWithBowl (some "duplicate key")).state.inquiries =
        stateWithBowl.inquiries) :=
  ⟨(addProduct_contract stateWithBowl none).1 rfl,
    (addProduct_contract stateWithBowl (some "duplicate key")).2
      "duplicate key" rfl⟩

/-- C8: the loading flag starts true; `fetchData` sets it true at its
start and clears it to false once both fetch results have been handled,
whatever they were (errors included); rendering is gated on the flag
(spinner while loading, a view page only when clear); and the mount
effect list schedules the initial refresh exactly once. -/
theorem loading_lifecycle
    (s : AppState) (pr : FetchResult Product) (ir : FetchResult Inquiry) :
    initState.loading = true ∧
    (beginRefresh s).loading = true ∧
    (fetchData s pr ir).state.loading = false ∧
    (s.loading = true → render s = Rendered.spinner) ∧
    (s.loading = false → render s = Rendered.page s.view) ∧
    List.count Effect.refresh mountEffects = 1 := by
  refine ⟨rfl, rfl, ?_, ?_, ?_, rfl⟩
  · cases pr <;> cases ir <;> rfl
  · intro h
    simp [render, h]
  · intro h
    simp [render, h]

/-- C8 (witness): the lifecycle applied at the initial state and at a
settled state, with both fetches erroring. -/
theorem loading_lifecycle_witness :
    (fetchData initState (FetchResult.err "down") (FetchResult.err "down")).state.loading
        = false ∧
      render initState = Rendered.spinner ∧
      render stateWithBowl = Rendered.page stateWithBowl.view :=
  ⟨(loading_lifecycle initState (FetchResult.err "down") (FetchResult.err "down")).2.2.1,
    (loading_lifecycle initState (FetchResult.err "down") (FetchResult.err "down")).2.2.2.1 rfl,
    (loading_lifecycle stateWithBowl (FetchResult.err "down") (FetchResult.err "down")).2.2.2.2.1 rfl⟩

/-- C9: the home view's featured section shows exactly the first four
products of the snapshot (so at most four, the newest under the
descending sort), and shows the empty-state notice exactly when the
snapshot is empty. -/
theorem homeFeatured_contract (products : List Product) :
    (homeFeatured products = FeaturedContent.emptyNotice ↔ products = []) ∧
    (products ≠ [] →
      homeFeatured products = FeaturedContent.cards (products.take 4) ∧
      (products.take 4).length ≤ 4) := by
  constructor
  · cases products with
    | nil => simp [homeFeatured]
    | cons p ps => simp [homeFeatured]
  · intro h
    cases products with
    | nil => exact absurd rfl h
    | cons p ps =>
      refine ⟨by simp [homeFeatured], ?_⟩
      exact List.length_take_le 4 (p :: ps)

/-- C9 (witness): with five products the featured section shows the
first four cards; with no products it shows the empty-state notice. -/
theorem homeFeatured_contract_witness :
    (homeFeatured fiveProducts =
        FeaturedContent.cards [clayBowl, clayVase, woolRug, teakTray] ∧
      (fiveProducts.take 4).length ≤ 4) ∧
    homeFeatured [] = FeaturedContent.emptyNotice :=
  ⟨⟨((homeFeatured_contract fiveProducts).2 (by decide)).1, by decide⟩,
    (homeFeatured_contract []).1.mpr rfl⟩

/-- C10: the add-product form submits an image equal to the typed
filename preceded by a slash when the field is non-empty, and the fixed
placeholder URL when the field is empty; the other fields pass through
unchanged. -/
theorem addProductForm_image_contract
    (name category : String) (price : Int) (description imageFile : String) :
    (imageFile ≠ "" →
      (buildProductFromForm name category price description imageFile).image =
        "/" ++ imageFile) ∧
    (imageFile = "" →
      (buildProductFromForm name category price description imageFile).image =
        placeholderImageUrl) ∧
    (buildProductFromForm name category price description imageFile).name = name ∧
    (buildProductFromForm name category price description imageFile).category
        = category ∧
    (buildProductFromForm name category price description imageFile).price = price ∧
    (buildProductFromForm name category price description imageFile).description
        = description := by
  refine ⟨?_, ?_, rfl, rfl, rfl, rfl⟩
  · intro h
    simp [buildProductFromForm, h]
  · rintro rfl
    simp [buildProductFromForm]

/-- C10 (witness): the form contract applied at a typed filename and at
an empty image field. -/
theorem addProductForm_image_contract_witness :
    (buildProductFromForm "Clay Bowl" "Pottery" 1200 "hand-thrown" "bowl.jpg").image
        = "/bowl.jpg" ∧
      (buildProductFromForm "Clay Bowl" "Pottery" 1200 "hand-thrown" "").image
        = placeholderImageUrl :=
  ⟨by
    have h := (addProductForm_image_contract "Clay Bowl" "Pottery" 1200
      "hand-thrown" "bowl.jpg").1 (by decide)
    simpa using h,
    (addProductForm_image_contract "Clay Bowl" "Pottery" 1200
      "hand-thrown" "").2.1 rfl⟩

end ArtisanCatalog
